import Mathlib

/-!
Shallow embedding of the wah4pc interoperability system.

Part A embeds the Python translation pipeline from
`blueprint-interop.md`: the translation tool `convert_hl7_to_fhir`
(app/services/translation_tools.py), the validator
`validate_fhir_patient` (app/services/validation_service.py), and the
tool-dispatch step of `translate_data` (app/main.py).

Part B embeds the receiving-boundary Express server
(Memorial Hospital EMR, `unnamed/part_000`): JavaScript value
semantics for `extractPatientDetails`, the `/fhir/patient` receipt
handler, the `/api/process-pending` commit handler, and the
`/api/search` handler.  File writes (`saveJsonFile`) catch their own
errors and return a boolean, so every handler is modelled with an
explicit success flag per write.
-/

/-- A simplified HL7-like payload: a string dictionary restricted to the
four keys the pipeline reads.  `Option` models a key that may be absent
(`dict.get` returns `None`; subscripting raises `KeyError`). -/
structure Hl7Data where
  patientId : Option String
  firstName : Option String
  lastName : Option String
  dateOfBirth : Option String
  deriving DecidableEq, Repr

/-- One entry of the FHIR `identifier` list; `value` comes from
`hl7_data.get("patientId")`, hence may be null. -/
structure Identifier where
  system : String
  value : Option String
  deriving DecidableEq, Repr

/-- One entry of the FHIR `name` list; `family` and each `given` entry
come from `dict.get`, hence may be null. -/
structure HumanName where
  family : Option String
  given : List (Option String)
  deriving DecidableEq, Repr

/-- The FHIR Patient resource built by `convert_hl7_to_fhir`. -/
structure FhirPatient where
  resourceType : String
  identifier : List Identifier
  name : List HumanName
  birthDate : String
  deriving DecidableEq, Repr

/-- The `ValueError` raised by `convert_hl7_to_fhir` when a `KeyError`
escapes the mapping logic; it carries the offending key name. -/
inductive TransError where
  | keyError (field : String)
  deriving DecidableEq, Repr

/-- Python string slicing `s[a:b]` with non-negative bounds: clamps to
the string's length and never raises. -/
def pySlice (s : String) (a b : Nat) : String :=
  String.mk ((s.toList.drop a).take (b - a))

/-- Embedding of `convert_hl7_to_fhir` (translation_tools.py).
`patientId`, `lastName`, `firstName` are read with `dict.get` (null on
absence, no error); `dateOfBirth` is read with subscripting, whose
`KeyError` is converted to a `ValueError`.  The date is rebuilt from
slices `[0:4]`, `[4:6]`, `[6:8]`. -/
def convert_hl7_to_fhir (hl7_data : Hl7Data) : Except TransError FhirPatient :=
  match hl7_data.dateOfBirth with
  | none => .error (.keyError "dateOfBirth")
  | some dob =>
    .ok {
      resourceType := "Patient"
      identifier := [{ system := "urn:clinic:patient-id", value := hl7_data.patientId }]
      name := [{ family := hl7_data.lastName, given := [hl7_data.firstName] }]
      birthDate := pySlice dob 0 4 ++ "-" ++ pySlice dob 4 6 ++ "-" ++ pySlice dob 6 8
    }

/-- The exceptions `validate_fhir_patient` can raise internally: a failed
`assert` or indexing `name[0]` on an empty list. -/
inductive ValErr where
  | assertionError
  | indexError
  deriving DecidableEq, Repr

/-- The body of `validate_fhir_patient` before its `try/except`: assert
the resource type is `"Patient"`, index `name[0]`, and assert the family
field is not `None`. -/
def validateCore (fhir : FhirPatient) : Except ValErr Bool :=
  if fhir.resourceType ≠ "Patient" then .error .assertionError
  else match fhir.name with
    | [] => .error .indexError
    | n :: _ => if n.family = none then .error .assertionError else .ok true

/-- Embedding of `validate_fhir_patient` (validation_service.py): any
exception in the body is caught and turned into `False`. -/
def validate_fhir_patient (fhir : FhirPatient) : Bool :=
  match validateCore fhir with
  | .ok b => b
  | .error _ => false

/-- The `AVAILABLE_TOOLS` registry of app/main.py: tool name to routine. -/
def AVAILABLE_TOOLS : List (String × (Hl7Data → Except TransError FhirPatient)) :=
  [("convert_hl7_to_fhir", convert_hl7_to_fhir)]

/-- Outcome of the tool-execution step of `translate_data` (app/main.py):
either a translated resource, an HTTP 400 translation error (the
routine raised `ValueError`), or an HTTP 400 unknown-tool rejection. -/
inductive DispatchOutcome where
  | ok (fhir : FhirPatient)
  | translationError (e : TransError)
  | unknownTool (name : String)
  deriving DecidableEq, Repr

/-- Step 2 of `translate_data`: look the chosen tool name up in
`AVAILABLE_TOOLS`; execute it on the original request data if present,
otherwise reject with the unknown-tool error without executing
anything. -/
def dispatchTool (tool_name : String) (data : Hl7Data) : DispatchOutcome :=
  match AVAILABLE_TOOLS.lookup tool_name with
  | some f =>
    match f data with
    | .ok r => .ok r
    | .error e => .translationError e
  | none => .unknownTool tool_name

/-- A JavaScript/JSON value as manipulated by the Express server:
`undefined` is distinct from `null`; numbers are modelled as
integers (no claim exercises fractional values). -/
inductive JsValue where
  | undefined
  | null
  | bool (b : Bool)
  | num (n : Int)
  | str (s : String)
  | arr (xs : List JsValue)
  | obj (fields : List (String × JsValue))

/-- The only exception `extractPatientDetails` can raise: a `TypeError`
from reading a property of `null` or `undefined`. -/
inductive JsError where
  | typeError
  deriving DecidableEq, Repr

/-- JavaScript truthiness. -/
def truthy : JsValue → Bool
  | .undefined => false
  | .null => false
  | .bool b => b
  | .num n => n != 0
  | .str s => s ≠ ""
  | .arr _ => true
  | .obj _ => true

/-- JavaScript property read `v.k`: throws `TypeError` on `null` and
`undefined`; `length` of arrays and strings; key lookup on objects
(missing key gives `undefined`); `undefined` on other primitives. -/
def getField : JsValue → String → Except JsError JsValue
  | .undefined, _ => .error .typeError
  | .null, _ => .error .typeError
  | .arr xs, "length" => .ok (.num xs.length)
  | .str s, "length" => .ok (.num s.length)
  | .obj fields, k => .ok ((fields.lookup k).getD .undefined)
  | _, _ => .ok .undefined

/-- JavaScript index read `v[i]` for a numeric literal index: throws on
`null`/`undefined`; element-or-`undefined` on arrays; one-character
string on strings; key `"i"` lookup on objects; `undefined` otherwise. -/
def jsIndex : JsValue → Nat → Except JsError JsValue
  | .undefined, _ => .error .typeError
  | .null, _ => .error .typeError
  | .arr xs, i => .ok (xs.getD i .undefined)
  | .str s, i =>
    .ok (match s.toList.get? i with
      | some c => .str (String.mk [c])
      | none => .undefined)
  | .obj fields, i => .ok ((fields.lookup (toString i)).getD .undefined)
  | _, _ => .ok .undefined

/-- JavaScript `a || b`. -/
def jsOr (a b : JsValue) : JsValue :=
  if truthy a then a else b

/-- JavaScript `a > n` as it occurs in `length > 0` checks: the lengths
compared are numbers or `undefined`, and `undefined > 0` is `false`. -/
def jsGT (a : JsValue) (n : Int) : Bool :=
  match a with
  | .num m => n < m
  | _ => false

mutual

/-- JavaScript `String(v)` for the values the server interpolates into
template literals. -/
def jsToString : JsValue → String
  | .undefined => "undefined"
  | .null => "null"
  | .bool b => if b then "true" else "false"
  | .num n => toString n
  | .str s => s
  | .arr xs => jsArrString xs
  | .obj _ => "[object Object]"

/-- `Array.prototype.toString`: comma-joined elements, with `null` and
`undefined` elements rendered as the empty string. -/
def jsArrString : List JsValue → String
  | [] => ""
  | [x] => jsItemString x
  | x :: rest => jsItemString x ++ "," ++ jsArrString rest

/-- One array element inside a join. -/
def jsItemString : JsValue → String
  | .undefined => ""
  | .null => ""
  | v => jsToString v

end

/-- The display record built by `extractPatientDetails`: every extracted
field keeps whatever JavaScript value the payload held (the code never
coerces them), while `full_name` is a template-literal string. -/
structure ExtractedDetails where
  patient_id : JsValue
  given_name : JsValue
  family_name : JsValue
  full_name : String
  birth_date : JsValue
  gender : JsValue
  original_fhir : JsValue

/-- The record returned by the `catch` branch of
`extractPatientDetails`; it still embeds the original payload. -/
def errorDetails (fhirData : JsValue) : ExtractedDetails where
  patient_id := .str "Error"
  given_name := .str "Error"
  family_name := .str "Error"
  full_name := "Error processing patient data"
  birth_date := .str "Unknown"
  gender := .str "Unknown"
  original_fhir := fhirData

/-- The `try` body of `extractPatientDetails` (unnamed/part_000, lines
68-106), step by step with JavaScript evaluation semantics. -/
def extractCore (fhirData : JsValue) : Except JsError ExtractedDetails := do
  let identifier ← getField fhirData "identifier"
  let patientId ←
    if truthy identifier then do
      let len ← getField identifier "length"
      if jsGT len 0 then do
        let first ← jsIndex identifier 0
        let v ← getField first "value"
        pure (jsOr v (.str "Unknown"))
      else pure (.str "Unknown")
    else pure (.str "Unknown")
  let nameField ← getField fhirData "name"
  let nameData ←
    if truthy nameField then do
      let len ← getField nameField "length"
      if jsGT len 0 then jsIndex nameField 0
      else pure (.obj [])
    else pure (.obj [])
  let familyRaw ← getField nameData "family"
  let familyName := jsOr familyRaw (.str "Unknown")
  let givenRaw ← getField nameData "given"
  let givenNames := jsOr givenRaw (.arr [.str "Unknown"])
  let g0 ← jsIndex givenNames 0
  let givenName := jsOr g0 (.str "Unknown")
  let birthRaw ← getField fhirData "birthDate"
  let genderRaw ← getField fhirData "gender"
  pure {
    patient_id := patientId
    given_name := givenName
    family_name := familyName
    full_name := jsToString givenName ++ " " ++ jsToString familyName
    birth_date := jsOr birthRaw (.str "Unknown")
    gender := jsOr genderRaw (.str "Unknown")
    original_fhir := fhirData
  }

/-- Embedding of `extractPatientDetails`: the `try/catch` wrapper around
`extractCore`, returning the `"Error"` display record when the body
throws. -/
def extractPatientDetails (fhirData : JsValue) : ExtractedDetails :=
  match extractCore fhirData with
  | .ok r => r
  | .error _ => errorDetails fhirData

/-- A record of the pending queue file (`pending_queue.json`), as built
by the `/fhir/patient` handler. -/
structure PendingRecord where
  details : ExtractedDetails
  received_timestamp : String
  status : String

/-- The JSON body sent back by the `/fhir/patient` handler.  `success`
models answering HTTP 200 with `status: 'success'` (the 500 branch
would set it to `false`). -/
structure ReceiveResponse where
  success : Bool
  message : String

/-- Embedding of the `POST /fhir/patient` handler (unnamed/part_000,
lines 176-205).  `saveOk` is the boolean returned by `saveJsonFile`,
which catches its own write errors; on a failed write the queue file is
left unchanged.  The handler never reads that boolean, and no statement
in its `try` block throws (`extractPatientDetails`, `loadJsonFile` and
`saveJsonFile` all catch internally), so the response is always the
success acknowledgement. -/
def receiveFhirPatient (fhirData : JsValue) (pendingQueue : List PendingRecord)
    (now : String) (saveOk : Bool) : List PendingRecord × ReceiveResponse :=
  let details := extractPatientDetails fhirData
  let record : PendingRecord :=
    { details := details, received_timestamp := now, status := "pending" }
  let newQueue := if saveOk then pendingQueue ++ [record] else pendingQueue
  (newQueue,
   { success := true
     message := "Patient data for " ++ details.full_name ++ " received and pending review." })

/-- State of the Delivery Queue: the contents of `pending_queue.json`
and `received_patients.json`.  The element type is abstract because the
files hold arbitrary JSON records. -/
structure QueueState (α : Type) where
  pending : List α
  committed : List α

/-- The JSON body sent back by the `/api/process-pending` handler:
`success: true` and a message quoting the number of records that were
pending when the handler loaded the file. -/
structure CommitResponse where
  success : Bool
  count : Nat

/-- Embedding of the `POST /api/process-pending` handler
(unnamed/part_000, lines 130-151): load both files, append pending to
committed, save the committed file, then save an empty pending file.
Each `saveJsonFile` catches its own errors and returns a boolean the
handler ignores; a failed write leaves that file unchanged.  The
response is always `success: true` with the loaded pending count. -/
def commitAll {α : Type} (s : QueueState α) (saveReceivedOk savePendingOk : Bool) :
    QueueState α × CommitResponse :=
  let merged := s.committed ++ s.pending
  let committedFile := if saveReceivedOk then merged else s.committed
  let pendingFile := if savePendingOk then [] else s.pending
  (⟨pendingFile, committedFile⟩, { success := true, count := s.pending.length })

/-- The display fields the `/api/search` handler reads from a committed
record; the handler assumes both are strings (it calls `toLowerCase`
and `includes` on them). -/
structure SearchDetails where
  patient_id : String
  full_name : String
  deriving DecidableEq, Repr

/-- A committed record as seen by the search handler. -/
structure SearchRecord where
  details : SearchDetails
  deriving DecidableEq, Repr

/-- JavaScript `toLowerCase` on the ASCII strings of the data model. -/
def toLowerStr (s : String) : String :=
  String.mk (s.toList.map Char.toLower)

/-- JavaScript `hay.includes(sub)`: `sub` occurs contiguously in `hay`
(every string includes the empty string). -/
def containsSub (hay sub : String) : Bool :=
  (List.range (hay.length + 1)).any fun i =>
    sub.toList == (hay.toList.drop i).take sub.length

/-- Embedding of the `GET /api/search` handler (unnamed/part_000, lines
154-173): a falsy query (absent or empty) answers the empty list;
otherwise filter the committed records by case-insensitive substring
match on the patient id or the composed full name. -/
def searchPatients (records : List SearchRecord) (query : String) : List SearchRecord :=
  if query = "" then []
  else
    let searchTerm := toLowerStr query
    records.filter fun p =>
      containsSub (toLowerStr p.details.patient_id) searchTerm ||
      containsSub (toLowerStr p.details.full_name) searchTerm

/-- Whether an embedded computation raised an exception. -/
def throws {ε α : Type} : Except ε α → Bool
  | .ok _ => false
  | .error _ => true

/-- C2: evaluation at the failing input.  A `dateOfBirth` of `"1980"`
(not 8 digits) does not raise: Python string slicing clamps, so the
routine returns a truncated `birthDate` of `"1980--"`, while an 8-digit
date is formatted correctly.  This contradicts the claim that non-8-digit
dates fail with the malformed-source-data error. -/
theorem c2_truncated_date_eval :
    convert_hl7_to_fhir ⟨some "C123", some "Juan", some "Dela Cruz", some "1980"⟩ =
      .ok ⟨"Patient", [⟨"urn:clinic:patient-id", some "C123"⟩],
        [⟨some "Dela Cruz", [some "Juan"]⟩], "1980--"⟩ ∧
    convert_hl7_to_fhir ⟨some "C123", some "Juan", some "Dela Cruz", some "19800101"⟩ =
      .ok ⟨"Patient", [⟨"urn:clinic:patient-id", some "C123"⟩],
        [⟨some "Dela Cruz", [some "Juan"]⟩], "1980-01-01"⟩ :=
  ⟨rfl, rfl⟩

/-- C3 counterexample: a payload whose required `patientId` field is
missing does not raise any error; the routine returns a translation
result whose identifier value is null, refuting the claim that every
missing required field raises `MalformedSourceData` and that no result
with null content is produced. -/
theorem c3_counterexample :
    convert_hl7_to_fhir ⟨none, some "Juan", some "Dela Cruz", some "19800101"⟩ =
      .ok ⟨"Patient", [⟨"urn:clinic:patient-id", none⟩],
        [⟨some "Dela Cruz", [some "Juan"]⟩], "1980-01-01"⟩ :=
  rfl

/-- C3 amended: the routine raises the malformed-source-data error
exactly when `dateOfBirth` is absent (and the error names that field);
payloads missing `patientId`, `firstName` or `lastName` instead produce
a result carrying null in the corresponding identifier or name
fields. -/
theorem c3_amended_missing_fields (d : Hl7Data) :
    throws (convert_hl7_to_fhir d) = d.dateOfBirth.isNone ∧
    convert_hl7_to_fhir { d with dateOfBirth := none } =
      .error (.keyError "dateOfBirth") ∧
    ∀ s, convert_hl7_to_fhir { d with dateOfBirth := some s } =
      .ok ⟨"Patient", [⟨"urn:clinic:patient-id", d.patientId⟩],
        [⟨d.lastName, [d.firstName]⟩],
        pySlice s 0 4 ++ "-" ++ pySlice s 4 6 ++ "-" ++ pySlice s 6 8⟩ := by
  refine ⟨?_, rfl, fun s => rfl⟩
  cases h : d.dateOfBirth <;> simp [convert_hl7_to_fhir, h, throws]

/-- C4 counterexample: a result whose name block has an empty-string
family name, with a correct resource-type tag and a well-formed
identity block, is accepted by the validator (the code only asserts
`family is not None`), refuting the claim that an empty family name is
rejected. -/
theorem c4_counterexample :
    validate_fhir_patient ⟨"Patient", [⟨"urn:clinic:patient-id", some "C123"⟩],
      [⟨some "", [some "Juan"]⟩], "1980-01-01"⟩ = true :=
  rfl

/-- C4 amended: the validator rejects any result whose name list is
empty or whose first name block's family field is absent (null); an
empty-string family name is accepted. -/
theorem c4_amended_reject_absent_family (fhir : FhirPatient)
    (h : fhir.name = [] ∨ ∃ n rest, fhir.name = n :: rest ∧ n.family = none) :
    validate_fhir_patient fhir = false := by
  rcases h with h | ⟨n, rest, hn, hf⟩ <;>
    by_cases hr : fhir.resourceType = "Patient" <;>
      simp [validate_fhir_patient, validateCore, *]

/-- C4 witness: the amended theorem applied to a concrete result whose
first name block has no family field. -/
theorem c4_witness :
    validate_fhir_patient ⟨"Patient", [⟨"urn:clinic:patient-id", some "C123"⟩],
      [⟨none, [some "Juan"]⟩], "1980-01-01"⟩ = false :=
  c4_amended_reject_absent_family _ (Or.inr ⟨⟨none, [some "Juan"]⟩, [], rfl, rfl⟩)

/-- C6: a chosen tool name absent from the `AVAILABLE_TOOLS` registry
makes the dispatch step return the unknown-tool rejection; no routine is
executed and no translation result is produced. -/
theorem c6_unknown_capability (tool_name : String) (data : Hl7Data)
    (h : tool_name ∉ AVAILABLE_TOOLS.map Prod.fst) :
    dispatchTool tool_name data = .unknownTool tool_name := by
  have hne : (tool_name == "convert_hl7_to_fhir") = false := by
    simp only [AVAILABLE_TOOLS, List.map, beq_eq_false_iff_ne, ne_eq]
    intro hc
    exact h (by simp [AVAILABLE_TOOLS, hc])
  simp [dispatchTool, AVAILABLE_TOOLS, List.lookup, hne]

/-- C6 witness: the dispatch theorem applied to the concrete unknown
tool name `convert_cda_to_fhir`. -/
theorem c6_witness :
    "convert_cda_to_fhir" ∉ AVAILABLE_TOOLS.map Prod.fst ∧
    dispatchTool "convert_cda_to_fhir"
        ⟨some "C123", some "Juan", some "Dela Cruz", some "19800101"⟩ =
      .unknownTool "convert_cda_to_fhir" :=
  ⟨by decide, c6_unknown_capability _ _ (by decide)⟩

/-- C8: the validator is total by construction in this embedding, and
whenever the validation body raises an exception the caught outcome is
the rejecting verdict `false` — never a propagated fault. -/
theorem c8_validator_total (fhir : FhirPatient)
    (h : throws (validateCore fhir) = true) :
    validate_fhir_patient fhir = false := by
  unfold validate_fhir_patient
  cases hv : validateCore fhir with
  | ok b => rw [hv] at h; simp [throws] at h
  | error e => rfl

/-- C8 witness: a result with an empty name list makes the body raise
(indexing `name[0]`), and the validator returns `false`. -/
theorem c8_witness :
    throws (validateCore ⟨"Patient", [], [], "1980-01-01"⟩) = true ∧
    validate_fhir_patient ⟨"Patient", [], [], "1980-01-01"⟩ = false :=
  ⟨rfl, c8_validator_total _ rfl⟩

/-- A concrete pending record, as the receipt handler would build it
for an empty-object payload. -/
def sampleRecord : PendingRecord where
  details := extractPatientDetails (.obj [])
  received_timestamp := "2024-01-01T00:00:00Z"
  status := "pending"

/-- C1 counterexample: starting from one pending record and an empty
committed store, a commit call in which the committed-store write fails
while the pending-store clear succeeds reports success, yet the record
is afterwards in neither the pending nor the committed set — it is
dropped from both, refuting the all-or-nothing atomicity claim.  (The
handler ignores the booleans `saveJsonFile` returns.) -/
theorem c1_counterexample :
    sampleRecord ∈ (⟨[sampleRecord], []⟩ : QueueState PendingRecord).pending ∧
    (commitAll (⟨[sampleRecord], []⟩ : QueueState PendingRecord) false true).1.pending = [] ∧
    (commitAll (⟨[sampleRecord], []⟩ : QueueState PendingRecord) false true).1.committed = [] ∧
    (commitAll (⟨[sampleRecord], []⟩ : QueueState PendingRecord) false true).2.success = true :=
  ⟨List.mem_singleton.mpr rfl, rfl, rfl, rfl⟩

/-- C1 amended: when both underlying store writes succeed, the commit
handler is an atomic batch move — afterwards the pending set is empty
and the committed set holds exactly the former committed records plus
the former pending records; when a write fails the handler can leave a
record in both sets or in neither. -/
theorem c1_amended_commit_atomic {α : Type} (s : QueueState α) :
    (commitAll s true true).1.pending = [] ∧
    ∀ r : α, r ∈ (commitAll s true true).1.committed ↔ r ∈ s.pending ∨ r ∈ s.committed := by
  refine ⟨rfl, fun r => ?_⟩
  simp [commitAll, List.mem_append, or_comm]

/-- C5 counterexample: when the pending-store write fails, the
`/fhir/patient` handler still acknowledges success while the pending
queue file is unchanged — the record was not durably appended, refuting
the claim that a success receipt implies a durable append. -/
theorem c5_counterexample :
    (receiveFhirPatient (.obj [("resourceType", .str "Patient")]) []
        "2024-01-01T00:00:00Z" false).2.success = true ∧
    (receiveFhirPatient (.obj [("resourceType", .str "Patient")]) []
        "2024-01-01T00:00:00Z" false).1 = [] :=
  ⟨rfl, rfl⟩

/-- C5 amended: the receipt handler always acknowledges success — when
the store write succeeds the record is appended to the pending set, and
when it fails the pending set is unchanged but the receipt is still
acknowledged as success (nothing in the handler's try block throws, and
the write's boolean result is never read). -/
theorem c5_amended_receipt_always_acknowledged (fhirData : JsValue)
    (q : List PendingRecord) (now : String) (saveOk : Bool) :
    (receiveFhirPatient fhirData q now saveOk).2.success = true ∧
    (receiveFhirPatient fhirData q now saveOk).1 =
      (if saveOk then
        q ++ [⟨extractPatientDetails fhirData, now, "pending"⟩]
      else q) :=
  ⟨rfl, rfl⟩

/-- C7 counterexample: if the first commit's pending-store clear write
fails (its committed-store write succeeding), the pending file still
holds the batch, so a second commit with no intervening enqueue appends
the batch to the committed set again — growing it from one record to
two — and reports one record moved, not zero.  This refutes the
unconditional idempotence claim: the handler ignores the boolean
`saveJsonFile` returns. -/
theorem c7_counterexample :
    (commitAll (⟨[sampleRecord], []⟩ : QueueState PendingRecord) true false).1.pending =
      [sampleRecord] ∧
    (commitAll (⟨[sampleRecord], []⟩ : QueueState PendingRecord) true false).1.committed =
      [sampleRecord] ∧
    (commitAll ((commitAll (⟨[sampleRecord], []⟩ : QueueState PendingRecord) true false).1)
        true true).2.count = 1 ∧
    (commitAll ((commitAll (⟨[sampleRecord], []⟩ : QueueState PendingRecord) true false).1)
        true true).1.committed = [sampleRecord, sampleRecord] :=
  ⟨rfl, rfl, rfl, rfl⟩

/-- C7 amended: after a commit whose pending-store clear write
succeeded, a second commit with no intervening enqueue leaves the
committed set unchanged (whatever the second call's write outcomes) and
reports zero records moved; when that clear fails, the second call
re-commits the still-pending batch as in the counterexample. -/
theorem c7_commit_idempotent {α : Type} (s : QueueState α)
    (okR1 okR2 okP2 : Bool) :
    (commitAll ((commitAll s okR1 true).1) okR2 okP2).1.committed =
      (commitAll s okR1 true).1.committed ∧
    (commitAll ((commitAll s okR1 true).1) okR2 okP2).2.count = 0 := by
  cases okR2 <;> simp [commitAll]

/-- A committed record with family name `Dela Cruz`, as the search
handler sees it. -/
def delaCruzRecord : SearchRecord where
  details := { patient_id := "C123", full_name := "Juan Dela Cruz" }

/-- C9 counterexample: for the empty search term the handler answers the
empty list, although the committed record's identifier and full name
both contain the empty string as a (case-insensitive) substring — so
the handler does not return exactly the matching records for every
term. -/
theorem c9_counterexample :
    searchPatients [delaCruzRecord] "" = [] ∧
    (containsSub (toLowerStr delaCruzRecord.details.patient_id) (toLowerStr "") ||
      containsSub (toLowerStr delaCruzRecord.details.full_name) (toLowerStr "")) = true :=
  ⟨rfl, by decide⟩

/-- C9 amended: for every non-empty search term the handler returns
exactly the committed records whose patient identifier or composed full
name contains the term as a case-insensitive substring; a falsy (empty
or absent) term answers the empty list. -/
theorem c9_amended_search_filter (records : List SearchRecord) (query : String)
    (h : query ≠ "") (r : SearchRecord) :
    r ∈ searchPatients records query ↔
      r ∈ records ∧
        (containsSub (toLowerStr r.details.patient_id) (toLowerStr query) ||
          containsSub (toLowerStr r.details.full_name) (toLowerStr query)) = true := by
  simp [searchPatients, h, List.mem_filter]

/-- C9 witness: the amended theorem applied to the committed
`Dela Cruz` record and the term `"Dela Cruz"`: the search returns the
record. -/
theorem c9_witness :
    ("Dela Cruz" ≠ "") ∧ delaCruzRecord ∈ searchPatients [delaCruzRecord] "Dela Cruz" :=
  ⟨by decide,
    (c9_amended_search_filter [delaCruzRecord] "Dela Cruz" (by decide) delaCruzRecord).mpr
      ⟨List.mem_singleton.mpr rfl, by decide⟩⟩

/-- Helper for C10: the success path of the extraction body always
stores the original payload unchanged in `original_fhir`. -/
theorem extractCore_ok_original (d : JsValue) (r : ExtractedDetails)
    (h : extractCore d = .ok r) : r.original_fhir = d := by
  unfold extractCore at h
  simp only [bind, Except.bind, pure, Except.pure] at h
  repeat' split at h
  all_goals cases h <;> rfl

/-- C10: display-field extraction is total in this embedding: a null
payload (whose property reads throw) yields the `"Error"` display
record; every extraction result embeds the original payload unchanged;
an empty-object payload yields the `"Unknown"` sentinels; and the
receipt handler acknowledges every payload, whatever its shape. -/
theorem c10_extract_total :
    extractPatientDetails .null = errorDetails .null ∧
    extractPatientDetails (.obj []) =
      { patient_id := .str "Unknown", given_name := .str "Unknown",
        family_name := .str "Unknown", full_name := "Unknown Unknown",
        birth_date := .str "Unknown", gender := .str "Unknown",
        original_fhir := .obj [] } ∧
    (∀ d : JsValue, (extractPatientDetails d).original_fhir = d) ∧
    ∀ (d : JsValue) (q : List PendingRecord) (now : String) (saveOk : Bool),
      (receiveFhirPatient d q now saveOk).2.success = true := by
  refine ⟨rfl, ?_, fun d => ?_, fun d q now saveOk => rfl⟩
  · simp [extractPatientDetails, extractCore, getField, truthy, jsGT, jsIndex, jsOr,
      jsToString, bind, Except.bind, pure, Except.pure]
  · unfold extractPatientDetails
    split
    · next r hr => exact extractCore_ok_original d r hr
    · rfl
